import Mathlib

/-!
Verification development for the epichron durable-execution core.

The development shallowly embeds the core saga engine:
* `runEffect` and its helpers follow `packages/core/src/effect-runner.ts`;
* the `Runner` namespace follows the duplicate engine (`runSagaStep`) shipped
  next to it, whose only divergence is `registerRollbackAction`;
* `runSaga` / `runIter` follow `packages/core/src/saga-runner.ts`.

JavaScript values carried by events, results and thrown errors are modelled by
the inductive `Val`; a thrown value's `.name` property is read by `Val.jsName`
(non-error values have no `name` property, so the AbortError check fails on
them, as in the source).  Each asynchronous step execution is modelled as a
pure function from its inputs — the two history-iterator results, the
behaviour of the descriptor's `effect` and `probe` when invoked — to a
`RunOutput`: the ordered list of observable `StepAction`s (publishes, effect and
probe invocations with their arguments, rollback registrations with the
arguments the registered closure will pass to the descriptor's `rollback`)
together with the returned value or propagated error.
-/

/-- JavaScript values appearing as event payloads, results and thrown errors. -/
inductive Val where
  | undef : Val
  | str : String → Val
  | num : Int → Val
  | error : String → String → Val
deriving DecidableEq, Repr

/-- Reading `e.name` on a thrown value: an `Error` object carries its `name`
field; any other value has no `name` property (modelled as the empty string,
which is never `"AbortError"`). -/
def Val.jsName : Val → String
  | .error n _ => n
  | _ => ""

/-- Payload of a `precall` history event (`{effectInstanceId, effectName}`). -/
structure PrecallPayload where
  effectInstanceId : String
  effectName : String
deriving DecidableEq, Repr

/-- Payload of a `call` history event
(`{effectInstanceId, effectName, success, ret}`). -/
structure CallPayload where
  effectInstanceId : String
  effectName : String
  success : Bool
  ret : Val
deriving DecidableEq, Repr

/-- A history event: `type: 'precall'` or `type: 'call'` with its payload. -/
inductive EffectExeEvent where
  | precall : PrecallPayload → EffectExeEvent
  | call : CallPayload → EffectExeEvent
deriving DecidableEq, Repr

/-- Errors propagated out of `runEffect`: either an `UnexpectedEventError`
(carrying the expected effect name, instance id and event type together with
the actual event, as in the constructor of the source class) or an arbitrary
re-raised JavaScript value. -/
inductive RunError where
  | unexpectedEvent (expectedEffectName expectedEffectInstanceId : String)
      (expectedEventType : String) (actual : EffectExeEvent) : RunError
  | raised (e : Val) : RunError
deriving DecidableEq, Repr

/-- Result of a step execution: a resolved value or a propagated error. -/
inductive StepResult where
  | ok (v : Val) : StepResult
  | error (e : RunError) : StepResult
deriving DecidableEq, Repr

/-- The arguments the registered rollback closure will pass to the
descriptor's `rollback` when the external registry later invokes it:
`rollback(succeeded, ret, abortController, ...funcArgs)`. -/
structure RollbackCall where
  succeeded : Bool
  ret : Val
  abortToken : Nat
  funcArgs : List Val
deriving DecidableEq, Repr

/-- Observable actions of one step execution, in program order. -/
inductive StepAction where
  | publish (e : EffectExeEvent) : StepAction
  | invokeEffect (abortToken : Nat) (args : List Val) : StepAction
  | invokeProbe (abortToken : Nat) (args : List Val) : StepAction
  | addRollback (rb : RollbackCall) : StepAction
deriving DecidableEq, Repr

/-- Outcome of one invocation of the descriptor's `effect` (the promise
resolves with a value or rejects with a thrown value). -/
inductive EffectOutcome where
  | ok (v : Val) : EffectOutcome
  | thrown (e : Val) : EffectOutcome
deriving DecidableEq, Repr

/-- `ProbeStatus` from `effect-spec.ts`: `{status:'succeeded', result}` or
`{status:'call'}`. -/
inductive ProbeStatus where
  | succeeded (result : Val) : ProbeStatus
  | call : ProbeStatus
deriving DecidableEq, Repr

/-- Outcome of one invocation of the descriptor's `probe`. -/
inductive ProbeBehavior where
  | returns (s : ProbeStatus) : ProbeBehavior
  | throws (e : Val) : ProbeBehavior
deriving DecidableEq, Repr

/-- Inputs of one `runEffect` call.  `precallSlot` and `callSlot` are the two
results of `historyIterator.next(abortController)` (`none` models
`done: true`); the iterator is external, so the two slots are independent
inputs.  `effectBehavior` and `probeBehavior` give the outcome of the (at most
one) invocation of the descriptor's `effect` and `probe` in this call. -/
structure EffectExeParams where
  effectInstanceId : String
  effectName : String
  funcArgs : List Val
  abortToken : Nat
  precallSlot : Option EffectExeEvent
  callSlot : Option EffectExeEvent
  effectBehavior : EffectOutcome
  probeBehavior : ProbeBehavior
deriving DecidableEq, Repr

/-- Trace and result of one step execution. -/
structure RunOutput where
  trace : List StepAction
  result : StepResult
deriving DecidableEq, Repr

/-- The `precall` event built by `publishPrecallEvent`. -/
def precallEventOf (p : EffectExeParams) : EffectExeEvent :=
  .precall ⟨p.effectInstanceId, p.effectName⟩

/-- The `call` event built by `publishCallEvent`. -/
def callEventOf (p : EffectExeParams) (success : Bool) (ret : Val) : EffectExeEvent :=
  .call ⟨p.effectInstanceId, p.effectName, success, ret⟩

/-- `registerRollbackAction` of `effect-runner.ts`: registers a closure that
calls `rollback(succeeded, ret, abortController, ...funcArgs)`. -/
def registerRollbackAction (p : EffectExeParams) (succeeded : Bool) (ret : Val) : StepAction :=
  .addRollback ⟨succeeded, ret, p.abortToken, p.funcArgs⟩

/-- `executeEffect`: invoke the effect; on success publish
`call{success:true, ret}` and register a succeeded rollback; on a thrown
`AbortError` register a failed rollback and re-raise without publishing; on
any other thrown value publish `call{success:false, ret:e}`, register a failed
rollback, and re-raise. -/
def executeEffect (p : EffectExeParams) : RunOutput :=
  match p.effectBehavior with
  | .ok ret =>
      ⟨[.invokeEffect p.abortToken p.funcArgs,
        .publish (callEventOf p true ret),
        registerRollbackAction p true ret],
       .ok ret⟩
  | .thrown e =>
      if e.jsName = "AbortError" then
        ⟨[.invokeEffect p.abortToken p.funcArgs,
          registerRollbackAction p false .undef],
         .error (.raised e)⟩
      else
        ⟨[.invokeEffect p.abortToken p.funcArgs,
          .publish (callEventOf p false e),
          registerRollbackAction p false .undef],
         .error (.raised e)⟩

/-- `executeInitialEffect`: publish the precall event, then run the effect. -/
def executeInitialEffect (p : EffectExeParams) : RunOutput :=
  let out := executeEffect p
  ⟨.publish (precallEventOf p) :: out.trace, out.result⟩

/-- `executeSubsequentEffect`: invoke the probe with
`(abortController, ...funcArgs)`.  If it reports `succeeded`, publish
`call{success:true, result}`, register a succeeded rollback and return the
result; if it reports `call`, fall through to `executeEffect`; a throwing
probe is not caught and propagates. -/
def executeSubsequentEffect (p : EffectExeParams) : RunOutput :=
  match p.probeBehavior with
  | .throws e =>
      ⟨[.invokeProbe p.abortToken p.funcArgs], .error (.raised e)⟩
  | .returns (.succeeded r) =>
      ⟨[.invokeProbe p.abortToken p.funcArgs,
        .publish (callEventOf p true r),
        registerRollbackAction p true r],
       .ok r⟩
  | .returns .call =>
      let out := executeEffect p
      ⟨.invokeProbe p.abortToken p.funcArgs :: out.trace, out.result⟩

/-- The guard of `handlePrecallEvent`:
`value.type !== 'precall' || value.payload.effectInstanceId !== id ||
value.payload.effectName !== name`. -/
def precallMismatch (ev : EffectExeEvent) (effectInstanceId effectName : String) : Bool :=
  match ev with
  | .precall pl => pl.effectInstanceId != effectInstanceId || pl.effectName != effectName
  | .call _ => true

/-- The guard of `handleCallEvent` (same shape, expecting type `'call'`). -/
def callMismatch (ev : EffectExeEvent) (effectInstanceId effectName : String) : Bool :=
  match ev with
  | .call pl => pl.effectInstanceId != effectInstanceId || pl.effectName != effectName
  | .precall _ => true

/-- `handlePrecallEvent`: a present first-slot event that fails the guard
throws `UnexpectedEventError(name, id, 'precall', event)`. -/
def handlePrecallEvent (slot : Option EffectExeEvent)
    (effectInstanceId effectName : String) : Option RunError :=
  match slot with
  | none => none
  | some ev =>
      if precallMismatch ev effectInstanceId effectName then
        some (.unexpectedEvent effectName effectInstanceId "precall" ev)
      else
        none

/-- `handleCallEvent`: a present second-slot event that fails the guard
throws `UnexpectedEventError(name, id, 'call', event)`. -/
def handleCallEvent (slot : Option EffectExeEvent)
    (effectInstanceId effectName : String) : Option RunError :=
  match slot with
  | none => none
  | some ev =>
      if callMismatch ev effectInstanceId effectName then
        some (.unexpectedEvent effectName effectInstanceId "call" ev)
      else
        none

/-- `runEffect` of `effect-runner.ts`: fetch the two slots, validate them,
then branch — both slots absent: fresh execution; call slot absent: probe
path; call slot present (the source tests only `callEvent.done` here): cast
the event to `CallEvent` and replay the recorded outcome.  In the cast branch
a (validated-away) precall event would read `payload.success` and
`payload.ret` as `undefined`, which the embedding mirrors. -/
def runEffect (p : EffectExeParams) : RunOutput :=
  match handlePrecallEvent p.precallSlot p.effectInstanceId p.effectName with
  | some err => ⟨[], .error err⟩
  | none =>
    match handleCallEvent p.callSlot p.effectInstanceId p.effectName with
    | some err => ⟨[], .error err⟩
    | none =>
      match p.callSlot with
      | none =>
          match p.precallSlot with
          | none => executeInitialEffect p
          | some _ => executeSubsequentEffect p
      | some ev =>
          match ev with
          | .call pl =>
              if pl.success then
                ⟨[registerRollbackAction p true pl.ret], .ok pl.ret⟩
              else
                ⟨[registerRollbackAction p false .undef], .error (.raised pl.ret)⟩
          | .precall _ =>
              ⟨[registerRollbackAction p false .undef], .error (.raised .undef)⟩

/-- Events published in a trace, in order. -/
def publishedEvents (tr : List StepAction) : List EffectExeEvent :=
  tr.filterMap fun a =>
    match a with
    | .publish e => some e
    | _ => none

/-- `call`-type events published in a trace, in order. -/
def publishedCallEvents (tr : List StepAction) : List CallPayload :=
  tr.filterMap fun a =>
    match a with
    | .publish (.call pl) => some pl
    | _ => none

/-- `precall`-type events published in a trace, in order. -/
def publishedPrecallEvents (tr : List StepAction) : List PrecallPayload :=
  tr.filterMap fun a =>
    match a with
    | .publish (.precall pl) => some pl
    | _ => none

/-- Effect invocations in a trace (abort token and bound arguments). -/
def effectInvocations (tr : List StepAction) : List (Nat × List Val) :=
  tr.filterMap fun a =>
    match a with
    | .invokeEffect t args => some (t, args)
    | _ => none

/-- Probe invocations in a trace (abort token and bound arguments). -/
def probeInvocations (tr : List StepAction) : List (Nat × List Val) :=
  tr.filterMap fun a =>
    match a with
    | .invokeProbe t args => some (t, args)
    | _ => none

/-- Rollback registrations in a trace, each recording the arguments the
registered closure will pass to the descriptor's `rollback`. -/
def rollbackCalls (tr : List StepAction) : List RollbackCall :=
  tr.filterMap fun a =>
    match a with
    | .addRollback rb => some rb
    | _ => none

namespace Runner

/-- `registerRollbackAction` of the duplicate engine (`runSagaStep` file):
the source passes the literal `true` to `rollback` instead of the `succeeded`
parameter it receives (`rollback(true, ret, abortController, ...funcArgs)`). -/
def registerRollbackAction (p : EffectExeParams) (succeeded : Bool) (ret : Val) : StepAction :=
  .addRollback ⟨true, ret, p.abortToken, p.funcArgs⟩

/-- `executeEffect` of the duplicate engine; identical to the core's except
that rollback registrations go through `Runner.registerRollbackAction`. -/
def executeEffect (p : EffectExeParams) : RunOutput :=
  match p.effectBehavior with
  | .ok ret =>
      ⟨[.invokeEffect p.abortToken p.funcArgs,
        .publish (callEventOf p true ret),
        registerRollbackAction p true ret],
       .ok ret⟩
  | .thrown e =>
      if e.jsName = "AbortError" then
        ⟨[.invokeEffect p.abortToken p.funcArgs,
          registerRollbackAction p false .undef],
         .error (.raised e)⟩
      else
        ⟨[.invokeEffect p.abortToken p.funcArgs,
          .publish (callEventOf p false e),
          registerRollbackAction p false .undef],
         .error (.raised e)⟩

/-- `executeInitialSagaStep` of the duplicate engine. -/
def executeInitialSagaStep (p : EffectExeParams) : RunOutput :=
  let out := executeEffect p
  ⟨.publish (precallEventOf p) :: out.trace, out.result⟩

/-- `executeSubsequentSagaStep` of the duplicate engine. -/
def executeSubsequentSagaStep (p : EffectExeParams) : RunOutput :=
  match p.probeBehavior with
  | .throws e =>
      ⟨[.invokeProbe p.abortToken p.funcArgs], .error (.raised e)⟩
  | .returns (.succeeded r) =>
      ⟨[.invokeProbe p.abortToken p.funcArgs,
        .publish (callEventOf p true r),
        registerRollbackAction p true r],
       .ok r⟩
  | .returns .call =>
      let out := executeEffect p
      ⟨.invokeProbe p.abortToken p.funcArgs :: out.trace, out.result⟩

/-- `runSagaStep` of the duplicate engine: the branch structure and the event
validation are those of the core `runEffect` (the event payload fields are
named `stepId`/`name` there; the shapes coincide). -/
def runSagaStep (p : EffectExeParams) : RunOutput :=
  match handlePrecallEvent p.precallSlot p.effectInstanceId p.effectName with
  | some err => ⟨[], .error err⟩
  | none =>
    match handleCallEvent p.callSlot p.effectInstanceId p.effectName with
    | some err => ⟨[], .error err⟩
    | none =>
      match p.callSlot with
      | none =>
          match p.precallSlot with
          | none => executeInitialSagaStep p
          | some _ => executeSubsequentSagaStep p
      | some ev =>
          match ev with
          | .call pl =>
              if pl.success then
                ⟨[registerRollbackAction p true pl.ret], .ok pl.ret⟩
              else
                ⟨[registerRollbackAction p false .undef], .error (.raised pl.ret)⟩
          | .precall _ =>
              ⟨[registerRollbackAction p false .undef], .error (.raised .undef)⟩

end Runner

/-- Behaviour of one saga-step sequence (the async generator produced by
`saga(payload)`) as consumed linearly by `runIter`: `steps` are the values the
successive `next()` calls yield (each an `EffectDescriptorWithArgs`, opaque to
the driver and modelled as a `Val`), after which the next advance either
resolves `done` with the completion value or rejects with a thrown error
(`final`). -/
structure SagaSeq where
  steps : List Val
  final : EffectOutcome
deriving DecidableEq, Repr

/-- `runIter` of `saga-runner.ts`: await `iter.next()`; if done, return its
value; otherwise discard the yielded value and recurse.  The embedding also
counts the `next()` requests, which the recursion issues strictly one after
another; a rejecting advance propagates as the driver's own rejection. -/
def runIter : List Val → EffectOutcome → Nat × EffectOutcome
  | [], fin => (1, fin)
  | _ :: rest, fin =>
      let r := runIter rest fin
      (r.1 + 1, r.2)

/-- `runSaga` of `saga-runner.ts`: build the step iterator from the saga and
the payload, then drive it with `runIter`.  The `sagaId` argument is received
but, as in the source, not used. -/
def runSaga (saga : Val → SagaSeq) (sagaId : String) (payload : Val) :
    Nat × EffectOutcome :=
  runIter (saga payload).steps (saga payload).final

/-- C1: when the history iterator yields a matching `precall` event and then a
matching `call` event with `success = true` (the Completed state), `runEffect`
returns the recorded `ret` value, invokes neither the descriptor's effect nor
its probe, publishes no event, and registers exactly one rollback action whose
closure will call `rollback` with `succeeded = true` and the recorded result
(together with the step's token and bound arguments). -/
theorem runEffect_completed_success (p : EffectExeParams) (v : Val)
    (hpre : p.precallSlot = some (.precall ⟨p.effectInstanceId, p.effectName⟩))
    (hcall : p.callSlot = some (.call ⟨p.effectInstanceId, p.effectName, true, v⟩)) :
    (runEffect p).result = .ok v ∧
    (runEffect p).trace = [.addRollback ⟨true, v, p.abortToken, p.funcArgs⟩] ∧
    effectInvocations (runEffect p).trace = [] ∧
    probeInvocations (runEffect p).trace = [] ∧
    publishedEvents (runEffect p).trace = [] := by
  simp [runEffect, handlePrecallEvent, handleCallEvent, precallMismatch, callMismatch,
        hpre, hcall, registerRollbackAction, effectInvocations, probeInvocations,
        publishedEvents, List.filterMap]

/-- C1 witness: the Completed-with-success replay at a concrete step. -/
theorem runEffect_completed_success_witness :
    (runEffect ⟨"step1", "effect1", [.str "arg1"], 0,
        some (.precall ⟨"step1", "effect1"⟩),
        some (.call ⟨"step1", "effect1", true, .str "result"⟩),
        .ok (.str "other"), .returns .call⟩).result = .ok (.str "result") ∧
    (runEffect ⟨"step1", "effect1", [.str "arg1"], 0,
        some (.precall ⟨"step1", "effect1"⟩),
        some (.call ⟨"step1", "effect1", true, .str "result"⟩),
        .ok (.str "other"), .returns .call⟩).trace =
      [.addRollback ⟨true, .str "result", 0, [.str "arg1"]⟩] :=
  ⟨(runEffect_completed_success _ (.str "result") rfl rfl).1,
   (runEffect_completed_success _ (.str "result") rfl rfl).2.1⟩

/-- C3: a step whose history iterator is exhausted at both slots (Fresh) and
whose effect resolves successfully yields the trace: publish of the `precall`
event (carrying the step's id and the descriptor's name), then the effect
invocation, then publish of the `call` event with `success = true` and the
effect's result, then the rollback registration; the effect's result is
returned.  The trace order shows the Precall publish precedes the effect
invocation and the effect invocation precedes the Call publish. -/
theorem runEffect_fresh_success (p : EffectExeParams) (v : Val)
    (hpre : p.precallSlot = none) (hcall : p.callSlot = none)
    (heff : p.effectBehavior = .ok v) :
    (runEffect p).result = .ok v ∧
    (runEffect p).trace =
      [.publish (.precall ⟨p.effectInstanceId, p.effectName⟩),
       .invokeEffect p.abortToken p.funcArgs,
       .publish (.call ⟨p.effectInstanceId, p.effectName, true, v⟩),
       .addRollback ⟨true, v, p.abortToken, p.funcArgs⟩] ∧
    publishedEvents (runEffect p).trace =
      [.precall ⟨p.effectInstanceId, p.effectName⟩,
       .call ⟨p.effectInstanceId, p.effectName, true, v⟩] := by
  simp [runEffect, handlePrecallEvent, handleCallEvent, hpre, hcall,
        executeInitialEffect, executeEffect, heff, registerRollbackAction,
        callEventOf, precallEventOf, publishedEvents, List.filterMap]

/-- C3 witness: fresh successful execution at a concrete step. -/
theorem runEffect_fresh_success_witness :
    (runEffect ⟨"step1", "effect1", [.str "arg1"], 0, none, none,
        .ok (.str "result"), .returns .call⟩).result = .ok (.str "result") ∧
    (runEffect ⟨"step1", "effect1", [.str "arg1"], 0, none, none,
        .ok (.str "result"), .returns .call⟩).trace =
      [.publish (.precall ⟨"step1", "effect1"⟩),
       .invokeEffect 0 [.str "arg1"],
       .publish (.call ⟨"step1", "effect1", true, .str "result"⟩),
       .addRollback ⟨true, .str "result", 0, [.str "arg1"]⟩] :=
  ⟨(runEffect_fresh_success _ (.str "result") rfl rfl rfl).1,
   (runEffect_fresh_success _ (.str "result") rfl rfl rfl).2.1⟩

/-- C5: when the history iterator yields a matching `precall` event and then a
matching `call` event with `success = false` (Completed with failure),
`runEffect` re-raises the recorded error value, invokes neither the effect nor
the probe, publishes nothing, and registers exactly one rollback action whose
closure will call `rollback` with `succeeded = false` and `undefined`. -/
theorem runEffect_completed_failure (p : EffectExeParams) (e : Val)
    (hpre : p.precallSlot = some (.precall ⟨p.effectInstanceId, p.effectName⟩))
    (hcall : p.callSlot = some (.call ⟨p.effectInstanceId, p.effectName, false, e⟩)) :
    (runEffect p).result = .error (.raised e) ∧
    (runEffect p).trace = [.addRollback ⟨false, .undef, p.abortToken, p.funcArgs⟩] ∧
    effectInvocations (runEffect p).trace = [] ∧
    probeInvocations (runEffect p).trace = [] ∧
    publishedEvents (runEffect p).trace = [] := by
  simp [runEffect, handlePrecallEvent, handleCallEvent, precallMismatch, callMismatch,
        hpre, hcall, registerRollbackAction, effectInvocations, probeInvocations,
        publishedEvents, List.filterMap]

/-- C5 witness: the Completed-with-failure replay at a concrete step. -/
theorem runEffect_completed_failure_witness :
    (runEffect ⟨"step1", "effect1", [.str "arg1"], 0,
        some (.precall ⟨"step1", "effect1"⟩),
        some (.call ⟨"step1", "effect1", false, .error "Error" "boom"⟩),
        .ok (.str "other"), .returns .call⟩).result =
      .error (.raised (.error "Error" "boom")) ∧
    (runEffect ⟨"step1", "effect1", [.str "arg1"], 0,
        some (.precall ⟨"step1", "effect1"⟩),
        some (.call ⟨"step1", "effect1", false, .error "Error" "boom"⟩),
        .ok (.str "other"), .returns .call⟩).trace =
      [.addRollback ⟨false, .undef, 0, [.str "arg1"]⟩] :=
  ⟨(runEffect_completed_failure _ (.error "Error" "boom") rfl rfl).1,
   (runEffect_completed_failure _ (.error "Error" "boom") rfl rfl).2.1⟩

/-- C4: for a failing effect invocation reached from the Fresh path or from
the InFlight probe-fallback path, `runEffect` re-raises the thrown error and
registers exactly one rollback action with `succeeded = false` and
`result = undefined`; if the error is a cancellation (`name = 'AbortError'`)
no `call` event is published, otherwise one `call` event with
`success = false` carrying the error as payload is published. -/
theorem runEffect_effect_failure (p : EffectExeParams) (e : Val)
    (hcall : p.callSlot = none)
    (hstate : p.precallSlot = none ∨
      (p.precallSlot = some (.precall ⟨p.effectInstanceId, p.effectName⟩) ∧
       p.probeBehavior = .returns .call))
    (heff : p.effectBehavior = .thrown e) :
    (runEffect p).result = .error (.raised e) ∧
    rollbackCalls (runEffect p).trace = [⟨false, .undef, p.abortToken, p.funcArgs⟩] ∧
    (e.jsName = "AbortError" → publishedCallEvents (runEffect p).trace = []) ∧
    (e.jsName ≠ "AbortError" →
      publishedCallEvents (runEffect p).trace =
        [⟨p.effectInstanceId, p.effectName, false, e⟩]) := by
  rcases hstate with h | ⟨h, hp⟩
  · by_cases hab : e.jsName = "AbortError" <;>
      simp [runEffect, handlePrecallEvent, handleCallEvent, hcall, h, heff, hab,
            executeInitialEffect, executeEffect, registerRollbackAction, callEventOf,
            precallEventOf, rollbackCalls, publishedCallEvents, List.filterMap]
  · by_cases hab : e.jsName = "AbortError" <;>
      simp [runEffect, handlePrecallEvent, handleCallEvent, precallMismatch, hcall, h,
            hp, heff, hab, executeSubsequentEffect, executeEffect,
            registerRollbackAction, callEventOf, rollbackCalls, publishedCallEvents,
            List.filterMap]

/-- C4 witness: a cancellation error thrown by a fresh effect is re-raised,
a failed rollback is registered, and no `call` event is published. -/
theorem runEffect_effect_failure_witness :
    (runEffect ⟨"step1", "effect1", [.str "arg1"], 0, none, none,
        .thrown (.error "AbortError" "cancelled"), .returns .call⟩).result =
      .error (.raised (.error "AbortError" "cancelled")) ∧
    rollbackCalls (runEffect ⟨"step1", "effect1", [.str "arg1"], 0, none, none,
        .thrown (.error "AbortError" "cancelled"), .returns .call⟩).trace =
      [⟨false, .undef, 0, [.str "arg1"]⟩] ∧
    publishedCallEvents (runEffect ⟨"step1", "effect1", [.str "arg1"], 0, none, none,
        .thrown (.error "AbortError" "cancelled"), .returns .call⟩).trace = [] :=
  ⟨(runEffect_effect_failure _ (.error "AbortError" "cancelled") rfl (Or.inl rfl) rfl).1,
   (runEffect_effect_failure _ (.error "AbortError" "cancelled") rfl (Or.inl rfl) rfl).2.1,
   (runEffect_effect_failure _ (.error "AbortError" "cancelled") rfl (Or.inl rfl) rfl).2.2.1 rfl⟩

/-- C7: a present first-slot event that is not a `precall` for the expected
step identity makes `runEffect` raise `UnexpectedEventError` carrying the
expected type `'precall'`, name and id and the actual event, with an empty
trace (so before any effect, probe or publish); likewise a present second-slot
event that is not a `call` for the expected identity (once the first slot
validates) raises the error with expected type `'call'`. -/
theorem runEffect_unexpected_event (p : EffectExeParams) :
    (∀ ev, p.precallSlot = some ev →
      (∀ pl, ev = .precall pl →
        pl.effectInstanceId ≠ p.effectInstanceId ∨ pl.effectName ≠ p.effectName) →
      runEffect p =
        ⟨[], .error (.unexpectedEvent p.effectName p.effectInstanceId "precall" ev)⟩) ∧
    (∀ ev, (∀ ev1, p.precallSlot = some ev1 →
        ev1 = .precall ⟨p.effectInstanceId, p.effectName⟩) →
      p.callSlot = some ev →
      (∀ pl, ev = .call pl →
        pl.effectInstanceId ≠ p.effectInstanceId ∨ pl.effectName ≠ p.effectName) →
      runEffect p =
        ⟨[], .error (.unexpectedEvent p.effectName p.effectInstanceId "call" ev)⟩) := by
  constructor
  · intro ev hpre h2
    have hm : precallMismatch ev p.effectInstanceId p.effectName = true := by
      cases ev with
      | precall pl =>
          rcases h2 pl rfl with h | h <;> simp [precallMismatch, bne_iff_ne, h]
      | call pl => rfl
    simp [runEffect, handlePrecallEvent, hpre, hm]
  · intro ev hok hcall h2
    have hm : callMismatch ev p.effectInstanceId p.effectName = true := by
      cases ev with
      | call pl =>
          rcases h2 pl rfl with h | h <;> simp [callMismatch, bne_iff_ne, h]
      | precall pl => rfl
    have hnone : handlePrecallEvent p.precallSlot p.effectInstanceId p.effectName = none := by
      cases hps : p.precallSlot with
      | none => rfl
      | some ev1 =>
          rw [hok ev1 hps]
          simp [handlePrecallEvent, precallMismatch]
    simp [runEffect, hnone, handleCallEvent, hcall, hm]

/-- C7 witness: a `precall` event recorded for a different step id raises
`UnexpectedEventError` with the expected and actual identities. -/
theorem runEffect_unexpected_event_witness :
    runEffect ⟨"step1", "effect1", [.str "arg1"], 0,
        some (.precall ⟨"other", "effect1"⟩), none,
        .ok (.str "r"), .returns .call⟩ =
      ⟨[], .error (.unexpectedEvent "effect1" "step1" "precall"
        (.precall ⟨"other", "effect1"⟩))⟩ :=
  (runEffect_unexpected_event _).1 _ rfl
    (by intro pl hpl; injection hpl with h; subst h; left; decide)

/-- C8 counterexample: with the first slot absent and the second slot a
matching successful `call` event, `runEffect` does not fail: it returns the
recorded payload and registers a succeeded rollback, exactly as in the
Completed state. -/
theorem runEffect_absent_precall_present_call_proceeds :
    (runEffect ⟨"step1", "effect1", [.str "arg1"], 0, none,
        some (.call ⟨"step1", "effect1", true, .str "r"⟩),
        .ok (.str "other"), .returns .call⟩).result = .ok (.str "r") ∧
    (runEffect ⟨"step1", "effect1", [.str "arg1"], 0, none,
        some (.call ⟨"step1", "effect1", true, .str "r"⟩),
        .ok (.str "other"), .returns .call⟩).trace =
      [.addRollback ⟨true, .str "r", 0, [.str "arg1"]⟩] := by
  decide

/-- C8 amended: when the first (precall) slot is absent but the second (call)
slot holds a matching `call` event, `runEffect` does not treat this as a
contract violation: the source only tests `callEvent.done`, so it proceeds
exactly as in the Completed state — returning the recorded `ret` when
`success` is true and re-raising it when `success` is false, registering the
corresponding rollback action. -/
theorem runEffect_absent_precall_present_call (p : EffectExeParams) (s : Bool) (v : Val)
    (hpre : p.precallSlot = none)
    (hcall : p.callSlot = some (.call ⟨p.effectInstanceId, p.effectName, s, v⟩)) :
    (s = true → (runEffect p).result = .ok v ∧
      (runEffect p).trace = [.addRollback ⟨true, v, p.abortToken, p.funcArgs⟩]) ∧
    (s = false → (runEffect p).result = .error (.raised v) ∧
      (runEffect p).trace = [.addRollback ⟨false, .undef, p.abortToken, p.funcArgs⟩]) := by
  cases s <;>
    simp [runEffect, handlePrecallEvent, handleCallEvent, callMismatch, hpre, hcall,
          registerRollbackAction]

/-- C8 amended witness: the absent-precall Completed behaviour at a concrete
step with a recorded failure. -/
theorem runEffect_absent_precall_present_call_witness :
    (runEffect ⟨"step1", "effect1", [.str "arg1"], 0, none,
        some (.call ⟨"step1", "effect1", false, .error "Error" "boom"⟩),
        .ok (.str "other"), .returns .call⟩).result =
      .error (.raised (.error "Error" "boom")) ∧
    (runEffect ⟨"step1", "effect1", [.str "arg1"], 0, none,
        some (.call ⟨"step1", "effect1", false, .error "Error" "boom"⟩),
        .ok (.str "other"), .returns .call⟩).trace =
      [.addRollback ⟨false, .undef, 0, [.str "arg1"]⟩] :=
  (runEffect_absent_precall_present_call _ false (.error "Error" "boom") rfl rfl).2 rfl

/-- C6 counterexample: in the InFlight state with the probe reporting
call-needed, a cancellation in the effect leaves the published-event list
empty — the engine does not publish "exactly one new event" in every
probe-call-needed case. -/
theorem runEffect_inflight_cancel_publishes_nothing :
    effectInvocations (runEffect ⟨"step1", "effect1", [.str "arg1"], 0,
        some (.precall ⟨"step1", "effect1"⟩), none,
        .thrown (.error "AbortError" "cancelled"), .returns .call⟩).trace =
      [(0, [.str "arg1"])] ∧
    publishedEvents (runEffect ⟨"step1", "effect1", [.str "arg1"], 0,
        some (.precall ⟨"step1", "effect1"⟩), none,
        .thrown (.error "AbortError" "cancelled"), .returns .call⟩).trace = [] ∧
    (publishedEvents (runEffect ⟨"step1", "effect1", [.str "arg1"], 0,
        some (.precall ⟨"step1", "effect1"⟩), none,
        .thrown (.error "AbortError" "cancelled"), .returns .call⟩).trace).length ≠ 1 := by
  decide

/-- C6 amended: in the InFlight state (matching `precall` slot, absent `call`
slot) the engine invokes the probe with the cancellation token and the step's
bound arguments and never publishes a `precall` event.  If the probe reports
succeeded with result `r`, it publishes one `call` event with `success = true`
and `r`, registers a rollback with `succeeded = true` and `r`, and returns `r`
without invoking the effect.  If the probe reports call-needed, it invokes the
effect and publishes exactly one new event — the `call` — whenever the effect
settles other than by cancellation; on a cancellation error nothing is
published. -/
theorem runEffect_inflight (p : EffectExeParams)
    (hpre : p.precallSlot = some (.precall ⟨p.effectInstanceId, p.effectName⟩))
    (hcall : p.callSlot = none) :
    probeInvocations (runEffect p).trace = [(p.abortToken, p.funcArgs)] ∧
    publishedPrecallEvents (runEffect p).trace = [] ∧
    (∀ r, p.probeBehavior = .returns (.succeeded r) →
      (runEffect p).result = .ok r ∧
      (runEffect p).trace =
        [.invokeProbe p.abortToken p.funcArgs,
         .publish (.call ⟨p.effectInstanceId, p.effectName, true, r⟩),
         .addRollback ⟨true, r, p.abortToken, p.funcArgs⟩]) ∧
    (p.probeBehavior = .returns .call →
      effectInvocations (runEffect p).trace = [(p.abortToken, p.funcArgs)] ∧
      (∀ v, p.effectBehavior = .ok v →
        publishedEvents (runEffect p).trace =
          [.call ⟨p.effectInstanceId, p.effectName, true, v⟩]) ∧
      (∀ e, p.effectBehavior = .thrown e → e.jsName ≠ "AbortError" →
        publishedEvents (runEffect p).trace =
          [.call ⟨p.effectInstanceId, p.effectName, false, e⟩]) ∧
      (∀ e, p.effectBehavior = .thrown e → e.jsName = "AbortError" →
        publishedEvents (runEffect p).trace = [])) := by
  have hrun : runEffect p = executeSubsequentEffect p := by
    simp [runEffect, handlePrecallEvent, handleCallEvent, precallMismatch, hpre, hcall]
  rw [hrun]
  refine ⟨?_, ?_, ?_, ?_⟩
  · cases hb : p.probeBehavior with
    | throws e =>
        simp [executeSubsequentEffect, hb, probeInvocations, List.filterMap]
    | returns s =>
        cases s with
        | succeeded r =>
            simp [executeSubsequentEffect, hb, probeInvocations,
                  registerRollbackAction, callEventOf, List.filterMap]
        | call =>
            cases he : p.effectBehavior with
            | ok v =>
                simp [executeSubsequentEffect, hb, executeEffect, he,
                      probeInvocations, registerRollbackAction, callEventOf,
                      List.filterMap]
            | thrown e =>
                by_cases hab : e.jsName = "AbortError" <;>
                  simp [executeSubsequentEffect, hb, executeEffect, he, hab,
                        probeInvocations, registerRollbackAction, callEventOf,
                        List.filterMap]
  · cases hb : p.probeBehavior with
    | throws e =>
        simp [executeSubsequentEffect, hb, publishedPrecallEvents, List.filterMap]
    | returns s =>
        cases s with
        | succeeded r =>
            simp [executeSubsequentEffect, hb, publishedPrecallEvents,
                  registerRollbackAction, callEventOf, List.filterMap]
        | call =>
            cases he : p.effectBehavior with
            | ok v =>
                simp [executeSubsequentEffect, hb, executeEffect, he,
                      publishedPrecallEvents, registerRollbackAction, callEventOf,
                      List.filterMap]
            | thrown e =>
                by_cases hab : e.jsName = "AbortError" <;>
                  simp [executeSubsequentEffect, hb, executeEffect, he, hab,
                        publishedPrecallEvents, registerRollbackAction, callEventOf,
                        List.filterMap]
  · intro r hb
    simp [executeSubsequentEffect, hb, registerRollbackAction, callEventOf]
  · intro hb
    refine ⟨?_, ?_, ?_, ?_⟩
    · cases he : p.effectBehavior with
      | ok v =>
          simp [executeSubsequentEffect, hb, executeEffect, he, effectInvocations,
                registerRollbackAction, callEventOf, List.filterMap]
      | thrown e =>
          by_cases hab : e.jsName = "AbortError" <;>
            simp [executeSubsequentEffect, hb, executeEffect, he, hab,
                  effectInvocations, registerRollbackAction, callEventOf,
                  List.filterMap]
    · intro v he
      simp [executeSubsequentEffect, hb, executeEffect, he, publishedEvents,
            registerRollbackAction, callEventOf, List.filterMap]
    · intro e he hab
      simp [executeSubsequentEffect, hb, executeEffect, he, hab, publishedEvents,
            registerRollbackAction, callEventOf, List.filterMap]
    · intro e he hab
      simp [executeSubsequentEffect, hb, executeEffect, he, hab, publishedEvents,
            registerRollbackAction, callEventOf, List.filterMap]

/-- C6 amended witness: the probe-succeeded reconciliation at a concrete
step — one `call{success:true}` publish, a succeeded rollback, the probe's
result returned, and no effect invocation in the trace. -/
theorem runEffect_inflight_witness :
    (runEffect ⟨"step1", "effect1", [.str "arg1"], 0,
        some (.precall ⟨"step1", "effect1"⟩), none,
        .ok (.str "other"), .returns (.succeeded (.str "probed"))⟩).result =
      .ok (.str "probed") ∧
    (runEffect ⟨"step1", "effect1", [.str "arg1"], 0,
        some (.precall ⟨"step1", "effect1"⟩), none,
        .ok (.str "other"), .returns (.succeeded (.str "probed"))⟩).trace =
      [.invokeProbe 0 [.str "arg1"],
       .publish (.call ⟨"step1", "effect1", true, .str "probed"⟩),
       .addRollback ⟨true, .str "probed", 0, [.str "arg1"]⟩] :=
  (runEffect_inflight _ rfl rfl).2.2.1 (.str "probed") rfl

/-- C2: evaluation of the duplicate engine (`runSagaStep`) at a
Completed-with-failure history: the step's outcome is the re-raised recorded
error, yet the registered rollback closure will call the descriptor's
`rollback` with `succeeded = true` — `Runner.registerRollbackAction` passes
the literal `true` instead of the `succeeded` flag it receives, unlike the
sibling `registerRollbackAction` of `effect-runner.ts`. -/
theorem runSagaStep_rollback_flag_hardcoded :
    (Runner.runSagaStep ⟨"step1", "effect1", [.str "arg1"], 0,
        some (.precall ⟨"step1", "effect1"⟩),
        some (.call ⟨"step1", "effect1", false, .error "Error" "boom"⟩),
        .ok (.str "other"), .returns .call⟩).result =
      .error (.raised (.error "Error" "boom")) ∧
    (Runner.runSagaStep ⟨"step1", "effect1", [.str "arg1"], 0,
        some (.precall ⟨"step1", "effect1"⟩),
        some (.call ⟨"step1", "effect1", false, .error "Error" "boom"⟩),
        .ok (.str "other"), .returns .call⟩).trace =
      [.addRollback ⟨true, .undef, 0, [.str "arg1"]⟩] := by
  decide

/-- `runIter` requests one element per recursive call — `steps.length`
yields plus the final advance — and propagates the sequence's own completion
or rejection. -/
theorem runIter_eq (steps : List Val) (fin : EffectOutcome) :
    runIter steps fin = (steps.length + 1, fin) := by
  induction steps with
  | nil => rfl
  | cons s rest ih => simp [runIter, ih]

/-- C9: for every saga, `runSaga` issues exactly one `next()` request per
element of the step sequence plus the final advance — the recursion in
`runIter` only issues a request after the previous one has resolved — and its
outcome is exactly the sequence's own termination: the completion value when
the sequence completes, the rejection error (with no partial result) when an
advance rejects. -/
theorem runSaga_resolves_final (saga : Val → SagaSeq) (sagaId : String) (payload : Val) :
    runSaga saga sagaId payload =
      ((saga payload).steps.length + 1, (saga payload).final) := by
  simp [runSaga, runIter_eq]

/-- C10: `runSaga` never reads its `sagaId` argument — any two saga ids give
identical behaviour — and the elements yielded by the step sequence are
discarded without influencing the driver: for any termination behaviour,
replacing the yielded Effect Invocations by any others leaves the driver's
outcome unchanged (the driver passes nothing to the Execution Engine; only
the sequence's completion value determines the result). -/
theorem runSaga_ignores_sagaId_and_steps :
    (∀ (saga : Val → SagaSeq) (id1 id2 : String) (payload : Val),
      runSaga saga id1 payload = runSaga saga id2 payload) ∧
    (∀ (steps1 steps2 : List Val) (fin : EffectOutcome),
      (runIter steps1 fin).2 = (runIter steps2 fin).2) := by
  constructor
  · intro saga id1 id2 payload
    rfl
  · intro steps1 steps2 fin
    simp [runIter_eq]
